import Mathlib

/-!
Shallow embedding of `examples/dolevyao_rpc.c`: the Dolev-Yao symbolic term
algebra, the `mypub` network predicate, and the client, server and attacker
roles of the request-response protocol.

The C file consists of VeriFast contracts over an inductive item algebra,
plus three implemented functions (`client`, `server`, `attacker`).  The API
wrapper functions (`create_pair`, `pair_get_first`, `hmacsha1`, ...) are
declared with contracts and deliberately left unimplemented in the source
("We do not provide an implementation of the wrappers here"); they are
embedded below directly from their contracts, with `Option` modelling the
aborting (`abort()` / false-postcondition) cases.  Network nondeterminism
(`net_receive`) is modelled by passing the received item value as an
explicit argument, constrained by the contract's `pub` guarantee.
-/

namespace DolevYao

/-- The inductive item algebra of `dolevyao_rpc.c` (lines 100-104):
symbolic keys, data, keyed hashes and pairs. -/
inductive Item where
  | key_item (creator : Int) (id : Int)
  | data_item (id : Int)
  | hmacsha1_item (keyCreator : Int) (id : Int) (payload : Item)
  | pair_item (first : Item) (second : Item)
deriving DecidableEq

/-- The unimplemented environment fixpoints of the source (lines 214-218):
`bad`, the event predicates `request` and `response`, and `shared_with`.
They are arbitrary but fixed for a run, so they are a parameter of the
embedding. -/
structure Env where
  bad : Int → Bool
  request : Int → Int → Item → Bool
  response : Int → Int → Item → Item → Bool
  shared_with : Int → Int → Int

/-- The fixpoint `mypub` (lines 221-248), translated switch by switch. -/
def mypub (e : Env) : Item → Bool
  | .key_item o k => e.bad o || e.bad (e.shared_with o k)
  | .data_item _ => true
  | .hmacsha1_item creator id m =>
      e.bad creator || e.bad (e.shared_with creator id) ||
      (match m with
       | .pair_item f s =>
          (match f with
           | .data_item tag =>
              if tag = 0 then
                e.request creator (e.shared_with creator id) s
              else if tag = 1 then
                (match s with
                 | .pair_item req resp =>
                    e.response creator (e.shared_with creator id) req resp
                 | _ => false)
              else false
           | _ => false)
       | _ => false)
  | .pair_item i1 i2 => mypub e i1 && mypub e i2

/-- `create_data_item` (lines 139-141): returns an item representing
`data_item(data)`. -/
def create_data_item (data : Int) : Item := Item.data_item data

/-- `create_pair` (lines 161-163): returns an item representing
`pair_item(f, s)`. -/
def create_pair (f s : Item) : Item := Item.pair_item f s

/-- `hmacsha1` (lines 156-158): given a key `key_item(creator, id)` and a
payload `p`, returns an item representing `hmacsha1_item(creator, id, p)`. -/
def hmacsha1 (creator id : Int) (p : Item) : Item :=
  Item.hmacsha1_item creator id p

/-- `item_get_data` (lines 144-154): returns the data of a data item and
aborts (modelled as `none`) on every other tag. -/
def item_get_data : Item → Option Int
  | .data_item d => some d
  | _ => none

/-- `pair_get_first` (lines 173-184): returns the first component of a pair
and aborts (modelled as `none`) on every other tag. -/
def pair_get_first : Item → Option Item
  | .pair_item f _ => some f
  | _ => none

/-- `pair_get_second` (lines 186-197): returns the second component of a
pair and aborts (modelled as `none`) on every other tag. -/
def pair_get_second : Item → Option Item
  | .pair_item _ s => some s
  | _ => none

/-- `hmacsha1_verify` (lines 199-201): succeeds exactly when the hash item
value is the keyed hash of the payload under the given key
(`h == hmacsha1_item(creator, id, p)`); aborts otherwise. -/
def hmacsha1_verify (h : Item) (creator id : Int) (p : Item) : Option Unit :=
  if h = Item.hmacsha1_item creator id p then some () else none

/-- `item_equals` (lines 204-206): structural comparison; the contract
ensures `result == (i1 == i2)`. -/
def item_equals (i1 i2 : Item) : Bool := i1 == i2

/-- The `world(pub)` predicate (line 110): the world is characterised by
its `pub` function. -/
structure World where
  pub : Item → Bool

/-- `net_send` (lines 165-167), modelled from its contract: sending is
permitted only when `pub(d) == true` (a send of a non-pub item violates the
precondition, modelled as `none`), and the world predicate is unchanged. -/
def net_send (w : World) (d : Item) : Option World :=
  if w.pub d then some w else none

/-- `net_receive` (lines 169-171), modelled from its contract: the world
nondeterministically offers some item; the oracle's choice `d` is returned
only when `pub(d) == true`, and the world predicate is unchanged. -/
def net_receive (w : World) (d : Item) : Option (Item × World) :=
  if w.pub d then some (d, w) else none

/-- The message built and sent by the first block of `client`
(lines 264-274): `pair_item(hash, payload)` with
`payload = pair_item(data_item(0), req)` and `hash = hmacsha1(key, payload)`. -/
def client_msg (creator id : Int) (req : Item) : Item :=
  let tag := create_data_item 0
  let payload := create_pair tag req
  let hash := hmacsha1 creator id payload
  create_pair hash payload

/-- The function `client` (lines 252-297).  The item plucked from the world
by `net_receive` is passed as the argument `r`; each wrapper call that can
abort is sequenced with `Option.bind`, so `none` models `abort()`. -/
def client (creator id : Int) (req : Item) (r : Item) : Option Item :=
  (pair_get_first r).bind fun hash =>
  (pair_get_second r).bind fun payload =>
  (hmacsha1_verify hash creator id payload).bind fun _ =>
  (pair_get_first payload).bind fun tag =>
  (item_get_data tag).bind fun tagValue =>
  if tagValue ≠ 1 then none else
  (pair_get_second payload).bind fun reqresp =>
  (pair_get_first reqresp).bind fun request1 =>
  (pair_get_second reqresp).bind fun resp =>
  if item_equals req request1 then some resp else none

/-- One iteration of the loop body of `server` (lines 313-348).  The
received item is the argument `r`; `computeResp` is the external
collaborator `compute_response` (lines 301-307); the result is the message
value passed to `net_send`, or `none` if the iteration aborts. -/
def server_step (creator id : Int) (computeResp : Item → Item) (r : Item) :
    Option Item :=
  (pair_get_first r).bind fun hash =>
  (pair_get_second r).bind fun payload =>
  (hmacsha1_verify hash creator id payload).bind fun _ =>
  (pair_get_first payload).bind fun tag =>
  (item_get_data tag).bind fun tagValue =>
  if tagValue ≠ 0 then none else
  (pair_get_second payload).bind fun req =>
  let resp := computeResp req
  let reqresp := create_pair req resp
  let tag1 := create_data_item 1
  let payload1 := create_pair tag1 reqresp
  let hash1 := hmacsha1 creator id payload1
  some (create_pair hash1 payload1)

/-- Principal state `principal(id, keyCount)` (line 112). -/
structure Principal where
  id : Int
  keyCount : Int
deriving DecidableEq

/-- `create_key` (lines 122-124): consumes `principal(p, keyCount)`,
returns `key(result, p, keyCount)` and leaves `principal(p, keyCount + 1)`. -/
def create_key (p : Principal) : Item × Principal :=
  (Item.key_item p.id p.keyCount, ⟨p.id, p.keyCount + 1⟩)

/-- `create_principal` (lines 116-118): consumes `principals(count)`,
produces `principal(count, 0)` and leaves `principals(count + 1)`. -/
def create_principal (count : Int) : Principal × Int :=
  (⟨count, 0⟩, count + 1)

/-- The principal state after `n` successive `create_key` calls. -/
def iter_keys (p : Principal) : Nat → Principal
  | 0 => p
  | n + 1 => (create_key (iter_keys p n)).2

/-- The key returned by the `(n+1)`-st `create_key` call on `p`. -/
def nth_key (p : Principal) (n : Nat) : Item :=
  (create_key (iter_keys p n)).1

/-- The registry state after `n` successive `create_principal` calls. -/
def iter_registry (count : Int) : Nat → Int
  | 0 => count
  | n + 1 => (create_principal (iter_registry count n)).2

/-- The principal issued by the `(n+1)`-st `create_principal` call. -/
def nth_principal (count : Int) (n : Nat) : Principal :=
  (create_principal (iter_registry count n)).1

/-- Attacker action 0 (lines 368-375): generate a fresh key; the
`assume(bad(creator) || bad(shared_with(creator, id)))` restricts the
modelled runs to those where the badness fact holds, so the key is put on
the wire (first component `some`) exactly in those runs. -/
def attacker_action0 (e : Env) (p : Principal) : Option Item × Principal :=
  let kp := create_key p
  match kp.1 with
  | .key_item creator id =>
      if e.bad creator || e.bad (e.shared_with creator id) then
        (some kp.1, kp.2)
      else
        (none, kp.2)
  | _ => (none, kp.2)

end DolevYao

namespace DolevYao

/-- A concrete environment used to instantiate witnesses: nobody is bad,
both event predicates hold everywhere, every key is shared with
principal 2. -/
def envW : Env where
  bad := fun _ => false
  request := fun _ _ _ => true
  response := fun _ _ _ _ => true
  shared_with := fun _ _ => 2

/-- A concrete well-formed response message used to instantiate witnesses:
the tag-1 message of key `key_item(1, 0)` echoing request `data_item(42)`
with response `data_item(7)`. -/
def rW : Item :=
  Item.pair_item
    (Item.hmacsha1_item 1 0
      (Item.pair_item (Item.data_item 1)
        (Item.pair_item (Item.data_item 42) (Item.data_item 7))))
    (Item.pair_item (Item.data_item 1)
      (Item.pair_item (Item.data_item 42) (Item.data_item 7)))

/-- A concrete environment where exactly principal 5 is bad, used to
instantiate attacker witnesses. -/
def envB : Env where
  bad := fun i => i == 5
  request := fun _ _ _ => true
  response := fun _ _ _ _ => true
  shared_with := fun _ _ => 2

theorem iter_keys_eq (p : Principal) (n : Nat) :
    iter_keys p n = ⟨p.id, p.keyCount + n⟩ := by
  induction n with
  | zero => simp [iter_keys]
  | succ k ih =>
      simp [iter_keys, create_key, ih]
      ring

theorem iter_registry_eq (c : Int) (n : Nat) :
    iter_registry c n = c + n := by
  induction n with
  | zero => simp [iter_registry]
  | succ k ih =>
      simp [iter_registry, create_principal, ih]
      ring

theorem nth_key_eq (p : Principal) (n : Nat) :
    nth_key p n = Item.key_item p.id (p.keyCount + n) := by
  simp [nth_key, create_key, iter_keys_eq]

theorem nth_principal_eq (c : Int) (n : Nat) :
    nth_principal c n = ⟨c + n, 0⟩ := by
  simp [nth_principal, create_principal, iter_registry_eq]

/-- C5: constructor injectivity of the term algebra: two `key_item`s are
equal iff their creator and sequence number agree, `hmacsha1_item` with a
fixed key is injective in the payload, and `item_equals` decides exactly
structural equality. -/
theorem item_injectivity_and_equals :
    (∀ p1 n1 p2 n2 : Int,
      Item.key_item p1 n1 = Item.key_item p2 n2 ↔ p1 = p2 ∧ n1 = n2) ∧
    (∀ (c k : Int) (m1 m2 : Item),
      Item.hmacsha1_item c k m1 = Item.hmacsha1_item c k m2 ↔ m1 = m2) ∧
    (∀ a b : Item, item_equals a b = true ↔ a = b) := by
  refine ⟨?_, ?_, ?_⟩
  · intro p1 n1 p2 n2
    simp
  · intro c k m1 m2
    simp
  · intro a b
    simp [item_equals]

/-- C6: round-trip of the term model: the matching accessor on a
constructed item yields back the original components, and every mismatched
accessor/tag combination aborts (returns `none`). -/
theorem item_roundtrip :
    (∀ a b : Item, pair_get_first (Item.pair_item a b) = some a) ∧
    (∀ a b : Item, pair_get_second (Item.pair_item a b) = some b) ∧
    (∀ d : Int, item_get_data (Item.data_item d) = some d) ∧
    (∀ c i : Int, pair_get_first (Item.key_item c i) = none ∧
      pair_get_second (Item.key_item c i) = none ∧
      item_get_data (Item.key_item c i) = none) ∧
    (∀ d : Int, pair_get_first (Item.data_item d) = none ∧
      pair_get_second (Item.data_item d) = none) ∧
    (∀ (c i : Int) (p : Item),
      pair_get_first (Item.hmacsha1_item c i p) = none ∧
      pair_get_second (Item.hmacsha1_item c i p) = none ∧
      item_get_data (Item.hmacsha1_item c i p) = none) ∧
    (∀ a b : Item, item_get_data (Item.pair_item a b) = none) :=
  ⟨fun _ _ => rfl, fun _ _ => rfl, fun _ => rfl,
   fun _ _ => ⟨rfl, rfl, rfl⟩, fun _ => ⟨rfl, rfl⟩,
   fun _ _ _ => ⟨rfl, rfl, rfl⟩, fun _ _ => rfl⟩

/-- C7: `create_key` on `principal(p, keyCount)` returns exactly
`key_item(p, keyCount)` and increments the counter; `create_principal` on
`principals(count)` issues id `count` with a fresh key counter and
increments the registry; consequently distinct `create_key` calls of one
principal return distinct sequence numbers and distinct `create_principal`
calls issue distinct ids. -/
theorem key_and_principal_uniqueness :
    (∀ p : Principal,
      create_key p = (Item.key_item p.id p.keyCount, ⟨p.id, p.keyCount + 1⟩)) ∧
    (∀ c : Int, create_principal c = (⟨c, 0⟩, c + 1)) ∧
    (∀ (p : Principal) (m n : Nat), m ≠ n → nth_key p m ≠ nth_key p n) ∧
    (∀ (c : Int) (m n : Nat), m ≠ n →
      (nth_principal c m).id ≠ (nth_principal c n).id) := by
  refine ⟨fun p => rfl, fun c => rfl, ?_, ?_⟩
  · intro p m n hmn
    simp [nth_key_eq]
    omega
  · intro c m n hmn
    simp [nth_principal_eq]
    omega

/-- Witness for C7 at a concrete principal and registry. -/
theorem key_and_principal_uniqueness_witness :
    (0 : Nat) ≠ (1 : Nat) ∧ nth_key ⟨5, 0⟩ 0 ≠ nth_key ⟨5, 0⟩ 1 :=
  ⟨by decide, key_and_principal_uniqueness.2.2.1 ⟨5, 0⟩ 0 1 (by decide)⟩

end DolevYao

namespace DolevYao

/-- C2: soundness of `mypub` on hashes: a hash item satisfying `mypub`
whose key endpoints are both good has a payload of the form
`pair_item(data_item(tag), s)`, and `tag = 0` with the `request` fact or
`tag = 1` with `s` a request/response pair and the `response` fact. -/
theorem mypub_hmac_sound (e : Env) (creator seq : Int) (m : Item)
    (hpub : mypub e (Item.hmacsha1_item creator seq m) = true)
    (hc : e.bad creator = false)
    (hs : e.bad (e.shared_with creator seq) = false) :
    ∃ tag s, m = Item.pair_item (Item.data_item tag) s ∧
      ((tag = 0 ∧ e.request creator (e.shared_with creator seq) s = true) ∨
       (tag = 1 ∧ ∃ req resp, s = Item.pair_item req resp ∧
          e.response creator (e.shared_with creator seq) req resp = true)) := by
  simp only [mypub, hc, hs, Bool.false_or] at hpub
  rcases m with _ | _ | _ | ⟨f, s⟩ <;> simp at hpub
  rcases f with _ | ⟨tag⟩ | _ | _ <;> simp at hpub
  by_cases h0 : tag = 0
  · subst h0
    simp at hpub
    exact ⟨0, s, rfl, Or.inl ⟨rfl, hpub⟩⟩
  · by_cases h1 : tag = 1
    · subst h1
      simp at hpub
      rcases s with _ | _ | _ | ⟨req, resp⟩ <;> simp at hpub
      exact ⟨1, _, rfl, Or.inr ⟨rfl, req, resp, rfl, hpub⟩⟩
    · simp [h0, h1] at hpub

/-- Witness for C2 at a concrete hash item in the concrete environment. -/
theorem mypub_hmac_sound_witness :
    mypub envW (Item.hmacsha1_item 1 0
      (Item.pair_item (Item.data_item 0) (Item.data_item 42))) = true ∧
    envW.bad 1 = false ∧ envW.bad (envW.shared_with 1 0) = false ∧
    ∃ tag s,
      Item.pair_item (Item.data_item 0) (Item.data_item 42) =
        Item.pair_item (Item.data_item tag) s ∧
      ((tag = 0 ∧ envW.request 1 (envW.shared_with 1 0) s = true) ∨
       (tag = 1 ∧ ∃ req resp, s = Item.pair_item req resp ∧
          envW.response 1 (envW.shared_with 1 0) req resp = true)) :=
  ⟨by decide, by decide, by decide,
   mypub_hmac_sound envW 1 0 _ (by decide) (by decide) (by decide)⟩

/-- C3: the network gate: `net_send` succeeds exactly when the item value
satisfies `pub` (a non-pub send is a contract violation, never a success),
`net_receive` only ever returns an item value satisfying `pub`, and both
operations leave the world predicate `pub` unchanged. -/
theorem net_gate_spec :
    (∀ (w : World) (d : Item), (net_send w d).isSome = w.pub d) ∧
    (∀ (w w' : World) (d : Item), net_send w d = some w' → w' = w) ∧
    (∀ (w w' : World) (d d' : Item),
      net_receive w d = some (d', w') → w.pub d' = true ∧ w' = w) := by
  refine ⟨?_, ?_, ?_⟩
  · intro w d
    by_cases h : w.pub d = true <;> simp [net_send, h]
  · intro w w' d h
    by_cases hp : w.pub d = true <;> simp [net_send, hp] at h
    exact h.symm
  · intro w w' d d' h
    by_cases hp : w.pub d = true <;> simp [net_receive, hp] at h
    rcases h with ⟨hd, hw⟩
    subst hd
    subst hw
    exact ⟨hp, rfl⟩

/-- Witness for C3: a concrete receive in the all-public world. -/
theorem net_gate_spec_witness :
    net_receive ⟨fun _ => true⟩ (Item.data_item 7) =
      some (Item.data_item 7, ⟨fun _ => true⟩) ∧
    (World.pub ⟨fun _ => true⟩ (Item.data_item 7) = true ∧
      (⟨fun _ => true⟩ : World) = ⟨fun _ => true⟩) :=
  ⟨rfl, net_gate_spec.2.2 ⟨fun _ => true⟩ ⟨fun _ => true⟩
    (Item.data_item 7) (Item.data_item 7) rfl⟩

end DolevYao

namespace DolevYao

/-- Successful runs of `client` are fully determined: the received item
must be the well-formed tag-1 response message echoing the request. -/
theorem client_eq_some (creator id : Int) (req r resp : Item)
    (h : client creator id req r = some resp) :
    r = Item.pair_item
          (Item.hmacsha1_item creator id
            (Item.pair_item (Item.data_item 1) (Item.pair_item req resp)))
          (Item.pair_item (Item.data_item 1) (Item.pair_item req resp)) := by
  rcases r with _ | _ | _ | ⟨hash, payload⟩ <;>
    simp [client, pair_get_first, pair_get_second] at h
  by_cases hv : hash = Item.hmacsha1_item creator id payload
  · subst hv
    simp only [hmacsha1_verify, if_pos rfl, Option.some_bind] at h
    rcases payload with _ | _ | _ | ⟨tag, reqresp⟩ <;>
      simp [pair_get_first, pair_get_second] at h
    rcases tag with _ | ⟨tv⟩ | _ | _ <;> simp [item_get_data] at h
    by_cases h1 : tv = 1
    · subst h1
      simp only [ne_eq, not_true_eq_false, if_false, Option.some_bind] at h
      rcases reqresp with _ | _ | _ | ⟨r1, r2⟩ <;>
        simp [pair_get_first, pair_get_second] at h
      by_cases he : req = r1
      · subst he
        simp [item_equals] at h
        subst h
        rfl
      · simp [item_equals, he] at h
    · simp [h1] at h
  · simp [hmacsha1_verify, hv] at h

/-- C1: end-to-end client integrity: under the client's precondition
(ownership of `key_item(creator, id)` with `shared_with(creator, id) ==
server`, a pub request with the `request` fact recorded), a run of `client`
that returns an item value `resp` from a received item value `r` allowed on
the wire (`mypub r`) establishes `bad(creator)`, `bad(server)`, or
`response(creator, server, req, resp)`. -/
theorem client_integrity (e : Env) (server creator id : Int)
    (req r resp : Item)
    (hkey : e.shared_with creator id = server)
    (hreqpub : mypub e req = true)
    (hreq : e.request creator server req = true)
    (hrecv : mypub e r = true)
    (hret : client creator id req r = some resp) :
    e.bad creator = true ∨ e.bad server = true ∨
      e.response creator server req resp = true := by
  have hr := client_eq_some creator id req r resp hret
  subst hr
  simp [mypub, hkey] at hrecv
  tauto

/-- Witness for C1 at a concrete environment, request and wire message. -/
theorem client_integrity_witness :
    envW.shared_with 1 0 = 2 ∧
    mypub envW (Item.data_item 42) = true ∧
    envW.request 1 2 (Item.data_item 42) = true ∧
    mypub envW rW = true ∧
    client 1 0 (Item.data_item 42) rW = some (Item.data_item 7) ∧
    (envW.bad 1 = true ∨ envW.bad 2 = true ∨
      envW.response 1 2 (Item.data_item 42) (Item.data_item 7) = true) :=
  ⟨rfl, rfl, rfl, by decide, by decide,
   client_integrity envW 2 1 0 (Item.data_item 42) rW (Item.data_item 7)
     rfl rfl rfl (by decide) (by decide)⟩

/-- C9: the hidden part of the client contract: given the spec's stated
preconditions (`request` fact and the key sharing), the message built and
sent by `client` passes the `net_send` gate exactly when the request item
value itself satisfies `mypub`; with a non-pub request the send violates
`net_send`'s precondition, so the call is outside the contract. -/
theorem client_send_requires_pub_req (e : Env) (server creator id : Int)
    (req : Item)
    (hshared : e.shared_with creator id = server)
    (hreq : e.request creator server req = true) :
    (net_send ⟨mypub e⟩ (client_msg creator id req)).isSome = mypub e req := by
  have hmsg : mypub e (client_msg creator id req) = mypub e req := by
    simp [client_msg, create_data_item, create_pair, hmacsha1, mypub,
      hshared, hreq]
  by_cases h : mypub e req = true
  · simp [net_send, hmsg, h]
  · simp [Bool.not_eq_true] at h
    simp [net_send, hmsg, h]

/-- Witness for C9: a non-pub request (an unleaked key) makes the client's
send fail the gate even though the spec's stated preconditions hold. -/
theorem client_send_requires_pub_req_witness :
    envW.shared_with 1 0 = 2 ∧
    envW.request 1 2 (Item.key_item 5 0) = true ∧
    (net_send ⟨mypub envW⟩ (client_msg 1 0 (Item.key_item 5 0))).isSome =
      mypub envW (Item.key_item 5 0) ∧
    mypub envW (Item.key_item 5 0) = false :=
  ⟨rfl, rfl,
   client_send_requires_pub_req envW 2 1 0 (Item.key_item 5 0) rfl rfl,
   by decide⟩

/-- C10: every item value returned by a completing run of `client` under
its precondition satisfies `mypub`, since it is a pair component of a
received message satisfying `mypub`. -/
theorem client_response_pub (e : Env) (creator id : Int) (req r resp : Item)
    (hrecv : mypub e r = true)
    (hret : client creator id req r = some resp) :
    mypub e resp = true := by
  have hr := client_eq_some creator id req r resp hret
  subst hr
  simp [mypub] at hrecv
  tauto

/-- Witness for C10 at a concrete received message. -/
theorem client_response_pub_witness :
    mypub envW rW = true ∧
    client 1 0 (Item.data_item 42) rW = some (Item.data_item 7) ∧
    mypub envW (Item.data_item 7) = true :=
  ⟨by decide, by decide,
   client_response_pub envW 1 0 (Item.data_item 42) rW (Item.data_item 7)
     (by decide) (by decide)⟩

end DolevYao

namespace DolevYao

/-- Successful iterations of the server loop body are fully determined: the
received item must be a well-formed tag-0 request message, and the output
is the tag-1 message pairing the request with `computeResp` of it. -/
theorem server_step_eq_some (creator id : Int) (cr : Item → Item)
    (r m : Item) (h : server_step creator id cr r = some m) :
    ∃ q, r = Item.pair_item
        (Item.hmacsha1_item creator id
          (Item.pair_item (Item.data_item 0) q))
        (Item.pair_item (Item.data_item 0) q) ∧
      m = Item.pair_item
        (Item.hmacsha1_item creator id
          (Item.pair_item (Item.data_item 1) (Item.pair_item q (cr q))))
        (Item.pair_item (Item.data_item 1) (Item.pair_item q (cr q))) := by
  rcases r with _ | _ | _ | ⟨hash, payload⟩ <;>
    simp [server_step, pair_get_first, pair_get_second] at h
  by_cases hv : hash = Item.hmacsha1_item creator id payload
  · subst hv
    simp only [hmacsha1_verify, if_pos rfl, Option.some_bind] at h
    rcases payload with _ | _ | _ | ⟨tag, q⟩ <;>
      simp [pair_get_first, pair_get_second] at h
    rcases tag with _ | ⟨tv⟩ | _ | _ <;> simp [item_get_data] at h
    by_cases h0 : tv = 0
    · subst h0
      simp only [ne_eq, not_true_eq_false, if_false, Option.some_bind,
        create_pair, create_data_item, hmacsha1, Option.some.injEq] at h
      exact ⟨q, rfl, h.2.symm⟩
    · simp [h0] at h
  · simp [hmacsha1_verify, hv] at h

/-- C4: server iteration behaviour: a completing iteration of `server`
decomposes the received pub item value as a verified tag-0 request message
`pair_item(hash, pair_item(data_item 0, q))`, obtains from
`compute_response` a response with the `response` fact recorded, and sends
`pair_item(hash2, pair_item(data_item 1, pair_item(q, resp)))` where
`hash2` is the keyed hash of exactly `pair_item(data_item 1,
pair_item(q, resp))`; the sent message satisfies `mypub`. -/
theorem server_step_spec (e : Env) (serverId creator id : Int)
    (cr : Item → Item) (r m : Item)
    (hshared : e.shared_with creator id = serverId)
    (hrecv : mypub e r = true)
    (hcr : ∀ q, (e.bad creator || e.bad serverId ||
        e.request creator serverId q) = true →
      mypub e (cr q) = true ∧ e.response creator serverId q (cr q) = true)
    (hstep : server_step creator id cr r = some m) :
    ∃ q, r = Item.pair_item
        (Item.hmacsha1_item creator id
          (Item.pair_item (Item.data_item 0) q))
        (Item.pair_item (Item.data_item 0) q) ∧
      m = Item.pair_item
        (Item.hmacsha1_item creator id
          (Item.pair_item (Item.data_item 1) (Item.pair_item q (cr q))))
        (Item.pair_item (Item.data_item 1) (Item.pair_item q (cr q))) ∧
      e.response creator serverId q (cr q) = true ∧
      mypub e m = true := by
  obtain ⟨q, hrq, hm⟩ := server_step_eq_some creator id cr r m hstep
  subst hrq
  subst hm
  simp [mypub, hshared] at hrecv
  have hpre : (e.bad creator || e.bad serverId ||
      e.request creator serverId q) = true := by
    simp only [Bool.or_eq_true]
    tauto
  obtain ⟨hcrp, hcresp⟩ := hcr q hpre
  refine ⟨q, rfl, rfl, hcresp, ?_⟩
  simp [mypub, hshared, hcresp, hcrp]
  tauto

/-- Witness for C4: a concrete server iteration in the concrete
environment, with `compute_response` returning `data_item 9`. -/
theorem server_step_spec_witness :
    envW.shared_with 1 0 = 2 ∧
    mypub envW (Item.pair_item
      (Item.hmacsha1_item 1 0
        (Item.pair_item (Item.data_item 0) (Item.data_item 42)))
      (Item.pair_item (Item.data_item 0) (Item.data_item 42))) = true ∧
    (∀ q, (envW.bad 1 || envW.bad 2 || envW.request 1 2 q) = true →
      mypub envW ((fun _ => Item.data_item 9) q) = true ∧
      envW.response 1 2 q ((fun _ => Item.data_item 9) q) = true) ∧
    server_step 1 0 (fun _ => Item.data_item 9)
      (Item.pair_item
        (Item.hmacsha1_item 1 0
          (Item.pair_item (Item.data_item 0) (Item.data_item 42)))
        (Item.pair_item (Item.data_item 0) (Item.data_item 42))) =
      some (Item.pair_item
        (Item.hmacsha1_item 1 0
          (Item.pair_item (Item.data_item 1)
            (Item.pair_item (Item.data_item 42) (Item.data_item 9))))
        (Item.pair_item (Item.data_item 1)
          (Item.pair_item (Item.data_item 42) (Item.data_item 9)))) ∧
    (∃ q, Item.pair_item
        (Item.hmacsha1_item 1 0
          (Item.pair_item (Item.data_item 0) (Item.data_item 42)))
        (Item.pair_item (Item.data_item 0) (Item.data_item 42)) =
          Item.pair_item
            (Item.hmacsha1_item 1 0
              (Item.pair_item (Item.data_item 0) q))
            (Item.pair_item (Item.data_item 0) q) ∧
      Item.pair_item
        (Item.hmacsha1_item 1 0
          (Item.pair_item (Item.data_item 1)
            (Item.pair_item (Item.data_item 42) (Item.data_item 9))))
        (Item.pair_item (Item.data_item 1)
          (Item.pair_item (Item.data_item 42) (Item.data_item 9))) =
          Item.pair_item
            (Item.hmacsha1_item 1 0
              (Item.pair_item (Item.data_item 1)
                (Item.pair_item q ((fun _ => Item.data_item 9) q))))
            (Item.pair_item (Item.data_item 1)
              (Item.pair_item q ((fun _ => Item.data_item 9) q))) ∧
      envW.response 1 2 q ((fun _ => Item.data_item 9) q) = true ∧
      mypub envW (Item.pair_item
        (Item.hmacsha1_item 1 0
          (Item.pair_item (Item.data_item 1)
            (Item.pair_item (Item.data_item 42) (Item.data_item 9))))
        (Item.pair_item (Item.data_item 1)
          (Item.pair_item (Item.data_item 42) (Item.data_item 9)))) = true) :=
  ⟨rfl, by decide, fun q _ => ⟨rfl, rfl⟩, by decide,
   server_step_spec envW 2 1 0 (fun _ => Item.data_item 9)
     (Item.pair_item
       (Item.hmacsha1_item 1 0
         (Item.pair_item (Item.data_item 0) (Item.data_item 42)))
       (Item.pair_item (Item.data_item 0) (Item.data_item 42)))
     (Item.pair_item
       (Item.hmacsha1_item 1 0
         (Item.pair_item (Item.data_item 1)
           (Item.pair_item (Item.data_item 42) (Item.data_item 9))))
       (Item.pair_item (Item.data_item 1)
         (Item.pair_item (Item.data_item 42) (Item.data_item 9))))
     rfl (by decide) (fun q _ => ⟨rfl, rfl⟩) (by decide)⟩

/-- C8: attacker action 0 is guarded by badness: the run publishes the
freshly generated key `key_item(p, keyCount)` only when `bad` holds of its
creator or of the partner it is shared with (and then the key is pub); in
every run where neither fact holds, no key is sent. -/
theorem attacker_key_leak_guarded (e : Env) (p : Principal) :
    (∀ k, (attacker_action0 e p).1 = some k →
      k = Item.key_item p.id p.keyCount ∧
      (e.bad p.id || e.bad (e.shared_with p.id p.keyCount)) = true ∧
      mypub e k = true) ∧
    (e.bad p.id = false → e.bad (e.shared_with p.id p.keyCount) = false →
      (attacker_action0 e p).1 = none) := by
  constructor
  · intro k hsent
    by_cases hb : (e.bad p.id || e.bad (e.shared_with p.id p.keyCount)) = true
    · simp [attacker_action0, create_key, hb] at hsent
      subst hsent
      exact ⟨rfl, hb, by simp [mypub, hb]⟩
    · simp [attacker_action0, create_key, hb] at hsent
  · intro hc hs
    simp [attacker_action0, create_key, hc, hs]

/-- Witness for C8: principal 5 is bad in `envB` and its key is sent; in
`envW` nobody is bad and no key is sent. -/
theorem attacker_key_leak_guarded_witness :
    (attacker_action0 envB ⟨5, 0⟩).1 = some (Item.key_item 5 0) ∧
    (Item.key_item 5 0 = Item.key_item 5 0 ∧
      (envB.bad 5 || envB.bad (envB.shared_with 5 0)) = true ∧
      mypub envB (Item.key_item 5 0) = true) ∧
    envW.bad 5 = false ∧ envW.bad (envW.shared_with 5 0) = false ∧
    (attacker_action0 envW ⟨5, 0⟩).1 = none :=
  ⟨by decide,
   (attacker_key_leak_guarded envB ⟨5, 0⟩).1 (Item.key_item 5 0) (by decide),
   rfl, rfl,
   (attacker_key_leak_guarded envW ⟨5, 0⟩).2 rfl rfl⟩

end DolevYao
